import Mathlib

/-!
Verification of the segmentation, worker-pipeline and state-reducer core of
the VoiceNote+ app (React + web-worker JavaScript), shallowly embedded in
Lean. Audio samples are modelled as rationals (the code only compares their
absolute values against thresholds), buffers as lists of samples, strings as
Lean strings, parsed JSON values as an inductive type, and the asynchronous
worker as explicit state passing.
-/

namespace VoiceNote

/-- From App.jsx: `WHISPER_SAMPLING_RATE = 16_000`. -/
def WHISPER_SAMPLING_RATE : ℕ := 16000

/-- From App.jsx: `MAX_AUDIO_LENGTH = 30` seconds. -/
def MAX_AUDIO_LENGTH : ℕ := 30

/-- From App.jsx: `MAX_SAMPLES = WHISPER_SAMPLING_RATE * MAX_AUDIO_LENGTH`. -/
def MAX_SAMPLES : ℕ := WHISPER_SAMPLING_RATE * MAX_AUDIO_LENGTH

/-- JavaScript `Math.abs` on a (rational-modelled) sample. -/
def jsAbs (q : ℚ) : ℚ := if q < 0 then -q else q

/-- JavaScript `String.prototype.trim`: strip leading and trailing
whitespace. -/
def jsTrim (s : String) : String :=
  String.mk (((s.data.dropWhile Char.isWhitespace).reverse.dropWhile Char.isWhitespace).reverse)

/-- From App.jsx `containsNonSilentAudio(audioData, silenceThreshold = 0.01)`:
true iff some sample has `Math.abs(audioData[i]) > silenceThreshold`. -/
def containsNonSilentAudio (audioData : List ℚ) (silenceThreshold : ℚ := 1/100) : Bool :=
  audioData.any (fun x => decide (silenceThreshold < jsAbs x))

/-- The consecutive-silent-sample counting loop shared by both versions of
`hasSilenceAtEnd` (App.jsx lines 296-310 and part_000 lines 374-386): walk the
window keeping `consecutiveSilentSamples` (`c`), resetting it on a loud sample,
and return true as soon as the count reaches `minSilenceSamples` (`m`).
The per-sample silence test is passed in as `silent` because the two source
copies differ there (`<` vs `<=` against the threshold). -/
def silentRunScan (silent : ℚ → Bool) (m : ℕ) : List ℚ → ℕ → Bool
  | [], _ => false
  | x :: xs, c =>
    if silent x then
      if m ≤ c + 1 then true else silentRunScan silent m xs (c + 1)
    else silentRunScan silent m xs 0

/-- The trailing window both versions of `hasSilenceAtEnd` restrict to:
`endSamples = min(minSilenceSamples * 2, audioData.length)` and then
`audioData.slice(audioData.length - endSamples)`. -/
def trailingWindow (audioData : List ℚ) (minSilenceSamples : ℕ) : List ℚ :=
  audioData.drop (audioData.length - min (minSilenceSamples * 2) audioData.length)

/-- From src/unnamed/part_000 `hasSilenceAtEnd` lines 367-389 at the level of a
window size in samples (the source computes `minSilenceSamples =
minSilenceDuration * (WHISPER_SAMPLING_RATE / 1000)` first): scan the trailing
window for a run of `minSilenceSamples` consecutive samples with
`Math.abs(x) <= silenceThreshold`. -/
def hasSilenceAtEndSamples (audioData : List ℚ) (silenceThreshold : ℚ)
    (minSilenceSamples : ℕ) : Bool :=
  silentRunScan (fun x => decide (jsAbs x ≤ silenceThreshold)) minSilenceSamples
    (trailingWindow audioData minSilenceSamples) 0

/-- From src/unnamed/part_000 `hasSilenceAtEnd(audioData, silenceThreshold = 0.01,
minSilenceDuration = 500)`: the duration in milliseconds is converted to samples
at 16 kHz. -/
def hasSilenceAtEnd (audioData : List ℚ) (silenceThreshold : ℚ := 1/100)
    (minSilenceDuration : ℕ := 500) : Bool :=
  hasSilenceAtEndSamples audioData silenceThreshold
    (minSilenceDuration * (WHISPER_SAMPLING_RATE / 1000))

/-- From src/src/App.jsx `hasSilenceAtEnd` lines 286-313: this copy returns
false on an empty buffer, takes the sample rate from the audio context (the
component creates it with `sampleRate: WHISPER_SAMPLING_RATE`), computes
`samplesForMinDuration = floor(minSilenceDuration * sampleRate / 1000)`, and
compares samples with a strict `Math.abs(x) < silenceThreshold`. -/
def hasSilenceAtEndApp (audioData : List ℚ) (silenceThreshold : ℚ := 1/100)
    (minSilenceDuration : ℕ := 500) (sampleRate : ℕ := WHISPER_SAMPLING_RATE) : Bool :=
  if audioData.length = 0 then false
  else
    silentRunScan (fun x => decide (jsAbs x < silenceThreshold))
      (minSilenceDuration * sampleRate / 1000)
      (trailingWindow audioData (minSilenceDuration * sampleRate / 1000)) 0

/-- From src/src/App.jsx, the segmentation `useEffect` body (lines 235-268):
one processing step over a decoded buffer snapshot. `newAudioSegment` is the
unsent span past the watermark (`transcribedMarker`); the step either emits it
as a finalized segment (first component `some …`) or emits nothing, and returns
the new watermark value. -/
def segmentationStep (fullBuffer : List ℚ) (transcribedMarker : ℕ) :
    Option (List ℚ) × ℕ :=
  let newAudioSegment := fullBuffer.drop transcribedMarker
  let hasNonSilentAudio := containsNonSilentAudio newAudioSegment
  if hasNonSilentAudio || decide (MAX_SAMPLES < newAudioSegment.length) then
    if decide (MAX_SAMPLES < newAudioSegment.length) || hasSilenceAtEndApp newAudioSegment then
      (some newAudioSegment, fullBuffer.length)
    else
      (none, transcribedMarker)
  else
    (none, fullBuffer.length)

/-- A parsed JSON value, as produced by a successful `JSON.parse`. -/
inductive Json where
  | null : Json
  | bool (b : Bool) : Json
  | num (q : ℚ) : Json
  | str (s : String) : Json
  | arr (items : List Json) : Json
  | obj (fields : List (String × Json)) : Json

/-- JavaScript property access `j.k`: a field of an object, `undefined`
(modelled as `none`) otherwise. -/
def getField (j : Json) (k : String) : Option Json :=
  match j with
  | .obj fields => fields.lookup k
  | _ => none

/-- JavaScript truthiness of a JSON value: `null`, `false`, `0` and `""` are
falsy; arrays and objects are always truthy. -/
def truthy (j : Json) : Bool :=
  match j with
  | .null => false
  | .bool b => b
  | .num q => decide (q ≠ 0)
  | .str s => decide (s ≠ "")
  | .arr _ => true
  | .obj _ => true

/-- Truthiness of `j.k` (a missing field is `undefined`, hence falsy). -/
def truthyField (j : Json) (k : String) : Bool :=
  match getField j k with
  | some v => truthy v
  | none => false

/-- JavaScript `Array.isArray(j.k)`. -/
def isArrayField (j : Json) (k : String) : Bool :=
  match getField j k with
  | some (.arr _) => true
  | _ => false

/-- The structured note object the worker posts with the `polished` message:
`{title, category, tags, content}`. Field values are JSON values, copied
verbatim from the parsed model output. -/
structure NoteData where
  title : Json
  category : Json
  tags : Json
  content : Json

/-- From worker.js `polishText` lines 780-790: the degraded-fallback note built
when parsing or validating the polish output fails; the raw streamed text
becomes the content. -/
def fallbackNoteData (finalOutput : String) : NoteData :=
  ⟨.str "Untitled Note", .str "Uncategorized", .arr [.str "auto-generated"],
    .str finalOutput⟩

/-- From worker.js `polishText` line 760: the validation
`!jsonOutput.title || !jsonOutput.category || !Array.isArray(jsonOutput.tags)
|| !jsonOutput.content` throws; so the output is accepted iff all four checks
pass. -/
def validPolishJson (j : Json) : Bool :=
  truthyField j "title" && truthyField j "category" && isArrayField j "tags" &&
    truthyField j "content"

/-- From worker.js `polishText` lines 755-791: what the worker turns the
accumulated polish stream into. `parsed` is the result of `JSON.parse` on the
accumulated text `finalOutput` (`none` when parsing threw). On a valid object
the four fields are copied into the note; otherwise the fallback note is
posted. The function is total: polishing never fails outright. -/
def processPolishOutput (parsed : Option Json) (finalOutput : String) : NoteData :=
  match parsed with
  | some j =>
    if validPolishJson j then
      ⟨(getField j "title").getD .null, (getField j "category").getD .null,
        (getField j "tags").getD .null, (getField j "content").getD .null⟩
    else fallbackNoteData finalOutput
  | none => fallbackNoteData finalOutput

/-- The wire-shape example from the spec:
`{"title":"T","category":"C","tags":["a"],"content":"X"}`. -/
def wellFormedPolishJson : Json :=
  .obj [("title", .str "T"), ("category", .str "C"), ("tags", .arr [.str "a"]),
    ("content", .str "X")]

/-- Messages the worker posts to the main thread (worker.js `self.postMessage`),
restricted to the generation/polishing lifecycle. -/
inductive WorkerMsg where
  | start : WorkerMsg
  | complete (output : String) : WorkerMsg
  | polishing : WorkerMsg
  | polished (note : NoteData) : WorkerMsg

/-- From worker.js `generate` (lines 584-650): the module-level `processing`
flag guards the whole body — `if (processing) return; processing = true;
try {…} finally { processing = false; }`. Modelled atomically: given the flag
at submission time and the decoded transcription output (the inference result,
an oracle here), return the flag after the run and the posted messages. A
dropped request posts nothing and leaves the flag unchanged. -/
def generateRun (processing : Bool) (output : String) : Bool × List WorkerMsg :=
  if processing then (processing, [])
  else (false, [.start, .complete output])

/-- From worker.js `polishText` (lines 652-807): there is no `processing`
guard — the function posts `polishing` unconditionally, streams, and posts the
`polished` result built by `processPolishOutput`; it never touches the
`processing` flag. -/
def polishTextRun (processing : Bool) (parsed : Option Json) (finalOutput : String) :
    Bool × List WorkerMsg :=
  (processing, [.polishing, .polished (processPolishOutput parsed finalOutput)])

/-- From src/src/speechReducer.js `initialSpeechState`: the reducer's state
shape. -/
structure SpeechState where
  text : String
  polishedText : String
  recordedAudio : Option (List ℚ)
  isRecording : Bool
  isProcessing : Bool
  isPolishing : Bool
  processingProgress : ℚ
  showOriginal : Bool
  showOriginalTranscription : Bool
  showAudio : Bool
  status : Option String
  loadingMessage : String
  fadeIn : Bool
  noteData : Option NoteData

/-- From src/src/speechReducer.js `initialSpeechState`. -/
def initialSpeechState : SpeechState :=
  { text := "", polishedText := "", recordedAudio := none, isRecording := false,
    isProcessing := false, isPolishing := false, processingProgress := 0,
    showOriginal := false, showOriginalTranscription := false, showAudio := false,
    status := none, loadingMessage := "", fadeIn := false, noteData := none }

/-- The reducer's action space (speechReducer.js dispatches on
`action.type`); `unknown` stands for any unrecognized action type. -/
inductive SpeechAction where
  | setStatus (status : Option String) (message : Option String) : SpeechAction
  | startRecording : SpeechAction
  | stopRecording : SpeechAction
  | setAudioData (audio : Option (List ℚ)) : SpeechAction
  | transcriptionProgress (progress : ℚ) : SpeechAction
  | transcriptionComplete (text : String) : SpeechAction
  | polishingProgress (progress : ℚ) : SpeechAction
  | polishingComplete (polishedText : String) (noteData : Option NoteData) : SpeechAction
  | toggleView : SpeechAction
  | toggleOriginalTranscription : SpeechAction
  | reset : SpeechAction
  | noSpeechDetected : SpeechAction
  | unknown : SpeechAction

/-- The fixed user-facing no-speech message of speechReducer.js
`NO_SPEECH_DETECTED`. -/
def noSpeechMessage : String :=
  "I didn't hear anything. Try speaking a bit louder or check if your microphone is working."

/-- From src/src/speechReducer.js `speechReducer(state, action)`, case by
case. `SET_STATUS` keeps the old loading message when the new one is absent or
empty (`action.message || state.loadingMessage`); `TRANSCRIPTION_COMPLETE`
stores `action.text` and sets `isPolishing` to the truthiness of
`action.text.trim()`; `POLISHING_COMPLETE` substitutes a placeholder note when
`action.noteData` is absent; `NO_SPEECH_DETECTED` installs `noSpeechMessage`;
an unrecognized action returns the state unchanged. -/
def speechReducer (state : SpeechState) (action : SpeechAction) : SpeechState :=
  match action with
  | .setStatus st msg =>
    { state with
      status := st,
      loadingMessage :=
        match msg with
        | some m => if m = "" then state.loadingMessage else m
        | none => state.loadingMessage }
  | .startRecording =>
    { state with
      isRecording := true, text := "", polishedText := "", recordedAudio := none,
      showOriginal := false, showOriginalTranscription := false, showAudio := false,
      processingProgress := 0, fadeIn := false, noteData := none }
  | .stopRecording =>
    { state with
      isRecording := false, isProcessing := true, processingProgress := 0,
      fadeIn := false }
  | .setAudioData audio => { state with recordedAudio := audio }
  | .transcriptionProgress p => { state with processingProgress := p }
  | .transcriptionComplete t =>
    { state with
      isProcessing := false, text := t, isPolishing := decide (jsTrim t ≠ ""),
      processingProgress := 1, fadeIn := false }
  | .polishingProgress p =>
    { state with isPolishing := true, processingProgress := p }
  | .polishingComplete pt nd =>
    { state with
      isPolishing := false, polishedText := pt,
      noteData := some (nd.getD
        ⟨.str "Untitled Note", .str "Uncategorized", .arr [], .str pt⟩),
      processingProgress := 1, fadeIn := true }
  | .toggleView => { state with showOriginal := !state.showOriginal }
  | .toggleOriginalTranscription =>
    { state with showOriginalTranscription := !state.showOriginalTranscription }
  | .reset => initialSpeechState
  | .noSpeechDetected =>
    { state with
      isProcessing := false, isPolishing := false, text := "",
      polishedText := noSpeechMessage,
      noteData := some ⟨.str "No Speech Detected", .str "Error",
        .arr [.str "error", .str "no-speech"], .str noSpeechMessage⟩,
      fadeIn := true }
  | .unknown => state

/-- From src/unnamed/part_006 `handleWorkerMessage`, case `"complete"`
(lines 110-128): when `e.data.output && e.data.output.trim()` is truthy,
dispatch `TRANSCRIPTION_COMPLETE` and request polishing; otherwise dispatch
`NO_SPEECH_DETECTED` and never request polishing. Returns the new state and
whether polishing was requested. -/
def handleCompleteMessage (state : SpeechState) (output : String) :
    SpeechState × Bool :=
  if output ≠ "" ∧ jsTrim output ≠ "" then
    (speechReducer state (.transcriptionComplete output), true)
  else
    (speechReducer state (.noSpeechDetected), false)

/-- From src/unnamed/part_000 `onMessageReceived`, case `"complete"`
(lines 174-184): the accumulated-transcript update
`prev + (prev && output ? " " : "") + output`. -/
def appendTranscription (prev output : String) : String :=
  let separator := if prev ≠ "" ∧ output ≠ "" then " " else ""
  prev ++ separator ++ output

/-- Resource-accounting state of the Capture Controller (App.jsx lines 150-189
and useSpeechRecorder.js lines 12-80): `hasRecorder` is the React state flag
guarding acquisition; the three counters count calls to
`navigator.mediaDevices.getUserMedia`, `new MediaRecorder` and
`new AudioContext`; `recorderStarted` records that `recorder.start()` was
called. -/
structure CaptureState where
  hasRecorder : Bool
  micAcquisitions : ℕ
  recordersCreated : ℕ
  audioContextsCreated : ℕ
  recorderStarted : Bool

/-- From App.jsx `startRecording` (lines 150-189): `if (!hasRecorder) { … }`
acquires the microphone, creates the recorder and the audio context and sets
`hasRecorder`; in every case the existing recorder is then started. -/
def startRecording (s : CaptureState) : CaptureState :=
  if s.hasRecorder then { s with recorderStarted := true }
  else
    { hasRecorder := true,
      micAcquisitions := s.micAcquisitions + 1,
      recordersCreated := s.recordersCreated + 1,
      audioContextsCreated := s.audioContextsCreated + 1,
      recorderStarted := true }

/-- The spec's §8 scenario, first phase: 10,000 samples of silence. -/
def scenarioBuffer10 : List ℚ := List.replicate 10000 0

/-- The scenario buffer once 5,000 speech samples (value 1/2) and 3,000
trailing silent samples have accumulated (length 18,000). -/
def scenarioBuffer18 : List ℚ :=
  List.replicate 10000 0 ++ (List.replicate 5000 (1/2) ++ List.replicate 3000 0)

/-- The full scenario buffer: 10,000 silence, 5,000 speech, 8,000 silence
(length 23,000). -/
def scenarioBuffer23 : List ℚ :=
  List.replicate 10000 0 ++ (List.replicate 5000 (1/2) ++ List.replicate 8000 0)

/-- The unsent span of `scenarioBuffer18` past watermark 10,000: 5,000 speech
samples and 3,000 trailing silent ones. -/
def scenarioSegment18 : List ℚ :=
  List.replicate 5000 (1/2) ++ List.replicate 3000 0

/-- The segment the scenario actually emits — the unsent span of
`scenarioBuffer23` past watermark 10,000, i.e. samples [10,000:23,000). -/
def scenarioSegment : List ℚ :=
  List.replicate 5000 (1/2) ++ List.replicate 8000 0

/-- A signal whose only silent run (16 samples) sits at the start of the
trailing window and is followed by 16 loud samples reaching the window's
end. -/
def runNotAtEndSignal : List ℚ := List.replicate 16 0 ++ List.replicate 16 1

theorem jsAbs_eq_abs (q : ℚ) : jsAbs q = |q| := by
  by_cases h : q < 0
  · simp [jsAbs, h, abs_of_neg h]
  · simp [jsAbs, h, abs_of_nonneg (not_lt.mp h)]

theorem containsNonSilentAudio_eq_false_iff (l : List ℚ) (th : ℚ) :
    containsNonSilentAudio l th = false ↔ ∀ x ∈ l, jsAbs x ≤ th := by
  simp [containsNonSilentAudio, not_lt]

/-- C1 (corrected): a fully silent buffer of length at most `MAX_SAMPLES` is
consumed without any segment being emitted, and the watermark advances to the
buffer's full length. (The length bound is necessary: see the
counterexample.) -/
theorem silent_buffer_consumed (B : List ℚ)
    (hsil : ∀ x ∈ B, jsAbs x ≤ 1/100) (hlen : B.length ≤ MAX_SAMPLES) :
    segmentationStep B 0 = (none, B.length) := by
  have hcs : containsNonSilentAudio (B.drop 0) = false := by
    rw [List.drop_zero]
    exact (containsNonSilentAudio_eq_false_iff B (1/100)).mpr hsil
  have hlt : decide (MAX_SAMPLES < (B.drop 0).length) = false := by
    simp [List.drop_zero, not_lt.mpr hlen]
  simp only [segmentationStep, hcs, hlt]
  simp

/-- Witness for `silent_buffer_consumed` at the concrete silent buffer
`[0, 1/200, -1/200]`. -/
theorem silent_buffer_consumed_witness :
    (∀ x ∈ ([0, 1/200, -1/200] : List ℚ), jsAbs x ≤ 1/100) ∧
      ([0, 1/200, -1/200] : List ℚ).length ≤ MAX_SAMPLES ∧
      segmentationStep ([0, 1/200, -1/200] : List ℚ) 0 = (none, 3) :=
  ⟨by intro x hx; fin_cases hx <;> norm_num [jsAbs_eq_abs, abs_le], by decide,
    silent_buffer_consumed [0, 1/200, -1/200]
      (by intro x hx; fin_cases hx <;> norm_num [jsAbs_eq_abs, abs_le]) (by decide)⟩

theorem any_replicate (n : ℕ) (z : ℚ) (p : ℚ → Bool) :
    (List.replicate n z).any p = (decide (n ≠ 0) && p z) := by
  induction n with
  | zero => rfl
  | succ k ih => cases h : p z <;> simp [List.replicate_succ, h, ih]

theorem all_replicate (n : ℕ) (z : ℚ) (p : ℚ → Bool) :
    (List.replicate n z).all p = (decide (n = 0) || p z) := by
  induction n with
  | zero => rfl
  | succ k ih => cases h : p z <;> simp [List.replicate_succ, h, ih]

theorem decide_lt_jsAbs_zero (th : ℚ) (h : 0 ≤ th) : decide (th < jsAbs 0) = false := by
  simp only [decide_eq_false_iff_not, jsAbs_eq_abs, abs_zero, not_lt]
  exact h

theorem containsNonSilentAudio_replicate_zero (n : ℕ) :
    containsNonSilentAudio (List.replicate n 0) = false := by
  rw [containsNonSilentAudio, any_replicate]
  rw [decide_lt_jsAbs_zero (1/100) (by norm_num)]
  simp

/-- C1 counterexample: a fully silent buffer longer than `MAX_SAMPLES`
(480,001 zero samples) is *not* consumed silently — the segmentation step
emits it as a segment, contradicting the claim that a buffer with no sample
above the silence threshold always produces zero segments. -/
theorem silent_overlong_buffer_emits_cex :
    (∀ x ∈ List.replicate 480001 (0:ℚ), jsAbs x ≤ 1/100) ∧
      (segmentationStep (List.replicate 480001 (0:ℚ)) 0).1 =
        some (List.replicate 480001 (0:ℚ)) := by
  constructor
  · intro x hx
    rw [List.eq_of_mem_replicate hx]
    norm_num [jsAbs_eq_abs]
  · have hlt : decide (MAX_SAMPLES < ((List.replicate 480001 (0:ℚ)).drop 0).length) = true := by
      norm_num [MAX_SAMPLES, WHISPER_SAMPLING_RATE, MAX_AUDIO_LENGTH]
    simp only [segmentationStep, hlt, Bool.or_true, Bool.true_or, if_true]
    rw [List.drop_zero]

/-- C2 (confirmed): when the unsent span exceeds `MAX_SAMPLES`, one
segmentation step emits exactly one segment — the whole unsent buffer, of its
full length — regardless of silence content, and advances the watermark to the
buffer's length. -/
theorem overlong_unsent_emits_whole (B : List ℚ) (h : MAX_SAMPLES < B.length) :
    segmentationStep B 0 = (some B, B.length) := by
  have hlt : decide (MAX_SAMPLES < (B.drop 0).length) = true := by
    simp [List.drop_zero, h]
  simp only [segmentationStep, hlt, Bool.or_true, Bool.true_or, if_true]
  simp

/-- Witness for `overlong_unsent_emits_whole` at a concrete buffer of 480,001
samples of value 1. -/
theorem overlong_unsent_emits_whole_witness :
    MAX_SAMPLES < (List.replicate 480001 (1:ℚ)).length ∧
      segmentationStep (List.replicate 480001 (1:ℚ)) 0 =
        (some (List.replicate 480001 (1:ℚ)), (List.replicate 480001 (1:ℚ)).length) :=
  ⟨by norm_num [MAX_SAMPLES, WHISPER_SAMPLING_RATE, MAX_AUDIO_LENGTH],
    overlong_unsent_emits_whole _
      (by norm_num [MAX_SAMPLES, WHISPER_SAMPLING_RATE, MAX_AUDIO_LENGTH])⟩

theorem silentRunScan_nil (silent : ℚ → Bool) (m c : ℕ) :
    silentRunScan silent m [] c = false := rfl

theorem silentRunScan_cons (silent : ℚ → Bool) (m : ℕ) (x : ℚ) (xs : List ℚ) (c : ℕ) :
    silentRunScan silent m (x :: xs) c =
      if silent x then
        if m ≤ c + 1 then true else silentRunScan silent m xs (c + 1)
      else silentRunScan silent m xs 0 := rfl

theorem silentRunScan_cons_loud (silent : ℚ → Bool) {z : ℚ} (hz : silent z = false)
    (m : ℕ) (xs : List ℚ) (c : ℕ) :
    silentRunScan silent m (z :: xs) c = silentRunScan silent m xs 0 := by
  rw [silentRunScan_cons, hz]
  simp

theorem silentRunScan_replicate_loud (silent : ℚ → Bool) {z : ℚ} (hz : silent z = false)
    (m : ℕ) (k : ℕ) (rest : List ℚ) :
    silentRunScan silent m (List.replicate k z ++ rest) 0 =
      silentRunScan silent m rest 0 := by
  induction k with
  | zero => simp
  | succ n ih =>
    rw [List.replicate_succ, List.cons_append, silentRunScan_cons_loud silent hz, ih]

theorem silentRunScan_replicate_silent_reach (silent : ℚ → Bool) {z : ℚ}
    (hz : silent z = true) (m : ℕ) :
    ∀ (k c : ℕ), c < m → m ≤ c + k → ∀ rest : List ℚ,
      silentRunScan silent m (List.replicate k z ++ rest) c = true := by
  intro k
  induction k with
  | zero => intro c hc hm rest; omega
  | succ n ih =>
    intro c hc hm rest
    rw [List.replicate_succ, List.cons_append, silentRunScan_cons, hz, if_pos rfl]
    by_cases hm1 : m ≤ c + 1
    · rw [if_pos hm1]
    · rw [if_neg hm1]
      exact ih (c + 1) (by omega) (by omega) rest

theorem silentRunScan_replicate_silent_pass (silent : ℚ → Bool) {z : ℚ}
    (hz : silent z = true) (m : ℕ) :
    ∀ (k c : ℕ), c + k < m → ∀ rest : List ℚ,
      silentRunScan silent m (List.replicate k z ++ rest) c =
        silentRunScan silent m rest (c + k) := by
  intro k
  induction k with
  | zero => intro c h rest; simp
  | succ n ih =>
    intro c h rest
    rw [List.replicate_succ, List.cons_append, silentRunScan_cons, hz, if_pos rfl,
      if_neg (by omega)]
    rw [ih (c + 1) (by omega) rest]
    congr 1
    omega

theorem all_take_mono {p : ℚ → Bool} {w : List ℚ} {m k : ℕ} (h : m ≤ k)
    (hall : (w.take k).all p = true) : (w.take m).all p = true := by
  rw [List.all_eq_true] at hall ⊢
  intro x hx
  apply hall
  have htt : w.take m = (w.take k).take m := by rw [List.take_take, min_eq_left h]
  rw [htt] at hx
  exact List.take_subset _ _ hx

theorem silentRunScan_iff (silent : ℚ → Bool) (m : ℕ) (hm : 1 ≤ m) :
    ∀ (w : List ℚ) (c : ℕ), c < m →
      (silentRunScan silent m w c = true ↔
        (∃ k, k ≤ w.length ∧ m ≤ c + k ∧ (w.take k).all silent = true) ∨
        (∃ i, i + m ≤ w.length ∧ ((w.drop i).take m).all silent = true)) := by
  intro w
  induction w with
  | nil =>
    intro c hc
    rw [silentRunScan_nil]
    simp only [List.length_nil]
    constructor
    · intro h; exact Bool.noConfusion h
    · rintro (⟨k, hk, hmk, _⟩ | ⟨i, him, _⟩) <;> omega
  | cons x xs ih =>
    intro c hc
    rw [silentRunScan_cons]
    by_cases hx : silent x = true
    · rw [hx, if_pos rfl]
      by_cases hm1 : m ≤ c + 1
      · rw [if_pos hm1]
        constructor
        · intro _
          exact Or.inl ⟨1, by simp, by omega, by simp [List.take_succ_cons, hx]⟩
        · intro _; rfl
      · rw [if_neg hm1, ih (c + 1) (by omega)]
        constructor
        · rintro (⟨k, hk, hmk, hall⟩ | ⟨i, him, hall⟩)
          · exact Or.inl ⟨k + 1, by simp; omega, by omega,
              by simp [List.take_succ_cons, hx, hall]⟩
          · exact Or.inr ⟨i + 1, by simp; omega, by simpa [List.drop_succ_cons] using hall⟩
        · rintro (⟨k, hk, hmk, hall⟩ | ⟨i, him, hall⟩)
          · match k, hk, hmk, hall with
            | 0, hk, hmk, hall => omega
            | k' + 1, hk, hmk, hall =>
              rw [List.take_succ_cons, List.all_cons] at hall
              rw [Bool.and_eq_true] at hall
              exact Or.inl ⟨k', by simp at hk; omega, by omega, hall.2⟩
          · match i, him, hall with
            | 0, him, hall =>
              rw [List.drop_zero] at hall
              obtain ⟨m', rfl⟩ : ∃ m', m = m' + 1 := ⟨m - 1, by omega⟩
              rw [List.take_succ_cons, List.all_cons] at hall
              refine Or.inl ⟨m' - c, ?_, by omega, ?_⟩
              · simp at him; omega
              · rw [Bool.and_eq_true] at hall
                exact all_take_mono (by omega) hall.2
            | i' + 1, him, hall =>
              exact Or.inr ⟨i', by simp at him; omega,
                by simpa [List.drop_succ_cons] using hall⟩
    · have hx' : silent x = false := by simpa using hx
      rw [hx']
      rw [if_neg Bool.false_ne_true, ih 0 (by omega)]
      constructor
      · rintro (⟨k, hk, hmk, hall⟩ | ⟨i, him, hall⟩)
        · refine Or.inr ⟨1, by simp; omega, ?_⟩
          rw [List.drop_succ_cons, List.drop_zero]
          exact all_take_mono (by omega) hall
        · exact Or.inr ⟨i + 1, by simp; omega, by simpa [List.drop_succ_cons] using hall⟩
      · rintro (⟨k, hk, hmk, hall⟩ | ⟨i, him, hall⟩)
        · match k, hk, hmk, hall with
          | 0, hk, hmk, hall => omega
          | k' + 1, hk, hmk, hall =>
            rw [List.take_succ_cons, List.all_cons, hx'] at hall
            simp at hall
        · match i, him, hall with
          | 0, him, hall =>
            rw [List.drop_zero] at hall
            obtain ⟨m', rfl⟩ : ∃ m', m = m' + 1 := ⟨m - 1, by omega⟩
            rw [List.take_succ_cons, List.all_cons, hx'] at hall
            simp at hall
          | i' + 1, him, hall =>
            exact Or.inr ⟨i', by simp at him; omega,
              by simpa [List.drop_succ_cons] using hall⟩

theorem silentRunScan_zero_iff (silent : ℚ → Bool) (m : ℕ) (hm : 1 ≤ m) (w : List ℚ) :
    silentRunScan silent m w 0 = true ↔
      ∃ i, i + m ≤ w.length ∧ ((w.drop i).take m).all silent = true := by
  rw [silentRunScan_iff silent m hm w 0 hm]
  constructor
  · rintro (⟨k, hk, hmk, hall⟩ | h)
    · refine ⟨0, by omega, ?_⟩
      rw [List.drop_zero]
      exact all_take_mono (by omega) hall
    · exact h
  · intro h
    exact Or.inr h

/-- C3 (corrected): `hasSilenceAtEnd` at window size `minSilenceSamples`
inspects only the trailing window of `min(2 * minSilenceSamples, len)` samples,
and returns true iff a run of at least `minSilenceSamples` consecutive samples
with absolute amplitude at most the threshold occurs *anywhere* within that
window — not only at its very end. -/
theorem hasSilenceAtEnd_iff_run_in_window (audioData : List ℚ) (th : ℚ) (m : ℕ)
    (hm : 1 ≤ m) :
    hasSilenceAtEndSamples audioData th m = true ↔
      ∃ i, i + m ≤ (trailingWindow audioData m).length ∧
        (((trailingWindow audioData m).drop i).take m).all
          (fun x => decide (jsAbs x ≤ th)) = true := by
  rw [hasSilenceAtEndSamples]
  exact silentRunScan_zero_iff _ m hm _

/-- Witness for `hasSilenceAtEnd_iff_run_in_window` at the concrete signal
`[1, 0, 0]` with threshold 1/100 and a two-sample minimum run. -/
theorem hasSilenceAtEnd_iff_run_in_window_witness :
    1 ≤ 2 ∧
      (hasSilenceAtEndSamples [1, 0, 0] (1/100) 2 = true ↔
        ∃ i, i + 2 ≤ (trailingWindow [1, 0, 0] 2).length ∧
          (((trailingWindow [1, 0, 0] 2).drop i).take 2).all
            (fun x => decide (jsAbs x ≤ 1/100)) = true) :=
  ⟨by norm_num, hasSilenceAtEnd_iff_run_in_window [1, 0, 0] (1/100) 2 (by norm_num)⟩

/-- C3 counterexample: on `runNotAtEndSignal` with a 16-sample minimum run the
whole signal is the trailing window, the only qualifying silent run ends 16
samples before the window's end (everything after it is above the threshold),
yet `hasSilenceAtEnd` returns true — contradicting the claim that such signals
yield false. -/
theorem silence_run_not_at_end_cex :
    hasSilenceAtEndSamples runNotAtEndSignal (1/100) 16 = true ∧
      (runNotAtEndSignal.drop 16).all (fun x => decide ((1:ℚ)/100 < jsAbs x)) = true := by
  have hz : (fun x => decide (jsAbs x ≤ (1:ℚ)/100)) 0 = true := by
    simp only [decide_eq_true_eq, jsAbs_eq_abs, abs_zero]
    norm_num
  constructor
  · have hw : trailingWindow runNotAtEndSignal 16 = runNotAtEndSignal := by
      rw [trailingWindow]
      norm_num [runNotAtEndSignal]
    rw [hasSilenceAtEndSamples, hw, runNotAtEndSignal]
    exact silentRunScan_replicate_silent_reach _ hz 16 16 0 (by norm_num) (by norm_num) _
  · have hd : runNotAtEndSignal.drop 16 = List.replicate 16 1 := by
      rw [runNotAtEndSignal]
      exact List.drop_left' (by simp)
    rw [hd, all_replicate]
    have h1 : decide ((1:ℚ)/100 < jsAbs 1) = true := by
      simp only [decide_eq_true_eq, jsAbs_eq_abs, abs_one]
      norm_num
    rw [h1]
    simp

theorem scenario_silent_sample : (fun x => decide (jsAbs x < (1:ℚ)/100)) 0 = true := by
  simp only [decide_eq_true_eq, jsAbs_eq_abs, abs_zero]
  norm_num

theorem scenario_loud_sample : (fun x => decide (jsAbs x < (1:ℚ)/100)) (1/2) = false := by
  simp only [decide_eq_false_iff_not, jsAbs_eq_abs, not_lt]
  rw [abs_of_nonneg (by norm_num : (0:ℚ) ≤ 1/2)]
  norm_num

theorem containsNonSilentAudio_speech_silence (a b : ℕ) (ha : a ≠ 0) :
    containsNonSilentAudio (List.replicate a (1/2) ++ List.replicate b 0) = true := by
  rw [containsNonSilentAudio, List.any_append, any_replicate]
  have h2 : decide ((1:ℚ)/100 < jsAbs (1/2)) = true := by
    simp only [decide_eq_true_eq, jsAbs_eq_abs]
    rw [abs_of_nonneg (by norm_num : (0:ℚ) ≤ 1/2)]
    norm_num
  rw [h2]
  simp [ha]

theorem hasSilenceAtEndApp_scenarioSegment : hasSilenceAtEndApp scenarioSegment = true := by
  rw [hasSilenceAtEndApp, if_neg (by
    rw [scenarioSegment, List.length_append, List.length_replicate, List.length_replicate]
    norm_num)]
  have hm : 500 * WHISPER_SAMPLING_RATE / 1000 = 8000 := by
    norm_num [WHISPER_SAMPLING_RATE]
  rw [hm]
  have hw : trailingWindow scenarioSegment 8000 = scenarioSegment := by
    rw [trailingWindow]
    have h1 : scenarioSegment.length = 13000 := by
      rw [scenarioSegment, List.length_append, List.length_replicate, List.length_replicate]
    rw [h1, show min (8000 * 2) 13000 = 13000 from min_eq_right (by norm_num),
      Nat.sub_self, List.drop_zero]
  rw [hw, scenarioSegment, silentRunScan_replicate_loud _ scenario_loud_sample,
    ← List.append_nil (List.replicate 8000 (0:ℚ))]
  exact silentRunScan_replicate_silent_reach _ scenario_silent_sample 8000 8000 0
    (by norm_num) (by norm_num) []

theorem hasSilenceAtEndApp_scenarioSegment18 :
    hasSilenceAtEndApp scenarioSegment18 = false := by
  rw [hasSilenceAtEndApp, if_neg (by
    rw [scenarioSegment18, List.length_append, List.length_replicate, List.length_replicate]
    norm_num)]
  have hm : 500 * WHISPER_SAMPLING_RATE / 1000 = 8000 := by
    norm_num [WHISPER_SAMPLING_RATE]
  rw [hm]
  have hw : trailingWindow scenarioSegment18 8000 = scenarioSegment18 := by
    rw [trailingWindow]
    have h1 : scenarioSegment18.length = 8000 := by
      rw [scenarioSegment18, List.length_append, List.length_replicate, List.length_replicate]
    rw [h1, show min (8000 * 2) 8000 = 8000 from min_eq_right (by norm_num),
      Nat.sub_self, List.drop_zero]
  rw [hw, scenarioSegment18, silentRunScan_replicate_loud _ scenario_loud_sample,
    ← List.append_nil (List.replicate 3000 (0:ℚ)),
    silentRunScan_replicate_silent_pass _ scenario_silent_sample 8000 3000 0 (by norm_num) []]
  exact silentRunScan_nil _ _ _

theorem segStep_scenario10 : segmentationStep scenarioBuffer10 0 = (none, 10000) := by
  have hcs : containsNonSilentAudio (scenarioBuffer10.drop 0) = false := by
    rw [List.drop_zero, scenarioBuffer10]
    exact containsNonSilentAudio_replicate_zero 10000
  have hlt : decide (MAX_SAMPLES < (scenarioBuffer10.drop 0).length) = false := by
    rw [List.drop_zero, decide_eq_false_iff_not, not_lt, scenarioBuffer10,
      List.length_replicate]
    norm_num [MAX_SAMPLES, WHISPER_SAMPLING_RATE, MAX_AUDIO_LENGTH]
  have hlen : scenarioBuffer10.length = 10000 := by
    rw [scenarioBuffer10, List.length_replicate]
  simp only [segmentationStep, hcs, hlt, hlen]
  rfl

theorem segStep_scenario18 : segmentationStep scenarioBuffer18 10000 = (none, 10000) := by
  have hdrop : scenarioBuffer18.drop 10000 = scenarioSegment18 := by
    rw [scenarioBuffer18, scenarioSegment18]
    exact List.drop_left' (by rw [List.length_replicate])
  have hlt : decide (MAX_SAMPLES < (scenarioBuffer18.drop 10000).length) = false := by
    rw [hdrop, decide_eq_false_iff_not, not_lt, scenarioSegment18, List.length_append,
      List.length_replicate, List.length_replicate]
    norm_num [MAX_SAMPLES, WHISPER_SAMPLING_RATE, MAX_AUDIO_LENGTH]
  have hcs : containsNonSilentAudio (scenarioBuffer18.drop 10000) = true := by
    rw [hdrop, scenarioSegment18]
    exact containsNonSilentAudio_speech_silence 5000 3000 (by norm_num)
  have hse : hasSilenceAtEndApp (scenarioBuffer18.drop 10000) = false := by
    rw [hdrop]
    exact hasSilenceAtEndApp_scenarioSegment18
  simp only [segmentationStep, hcs, hlt, hse]
  rfl

theorem segStep_scenario23 :
    segmentationStep scenarioBuffer23 10000 = (some scenarioSegment, 23000) := by
  have hdrop : scenarioBuffer23.drop 10000 = scenarioSegment := by
    rw [scenarioBuffer23, scenarioSegment]
    exact List.drop_left' (by rw [List.length_replicate])
  have hlt : decide (MAX_SAMPLES < scenarioSegment.length) = false := by
    rw [decide_eq_false_iff_not, not_lt, scenarioSegment, List.length_append,
      List.length_replicate, List.length_replicate]
    norm_num [MAX_SAMPLES, WHISPER_SAMPLING_RATE, MAX_AUDIO_LENGTH]
  have hcs : containsNonSilentAudio scenarioSegment = true := by
    rw [scenarioSegment]
    exact containsNonSilentAudio_speech_silence 5000 8000 (by norm_num)
  have hlen : scenarioBuffer23.length = 23000 := by
    rw [scenarioBuffer23, List.length_append, List.length_append, List.length_replicate,
      List.length_replicate, List.length_replicate]
  simp only [segmentationStep, hdrop, hlen, hcs, hlt, hasSilenceAtEndApp_scenarioSegment]
  rfl

/-- C4 counterexample: in the spec's 10,000-silence / 5,000-speech /
8,000-silence scenario, at the step where the trailing silence has reached
8,000 samples (buffer length 23,000, watermark 10,000) the watermark advances
to 23,000, not 18,000 as claimed; and no segment at all is emitted at buffer
length 18,000, so no step ever sets the watermark to 18,000. -/
theorem scenario_watermark_cex :
    (segmentationStep scenarioBuffer23 10000).2 = 23000 ∧ (23000 : ℕ) ≠ 18000 ∧
      (segmentationStep scenarioBuffer18 10000).1 = none := by
  refine ⟨?_, by norm_num, ?_⟩
  · rw [segStep_scenario23]
  · rw [segStep_scenario18]

/-- C4 (corrected): in the scenario, the engine consumes the 10,000 leading
silent samples without emitting (watermark 10,000); at buffer length 18,000
(trailing silence only 3,000 samples) it emits nothing and keeps the
watermark; and at the step where the trailing silence reaches 8,000 samples it
emits exactly one segment, namely samples [10,000:23,000) — which contains the
claimed span [10,000:18,000) — of length 13,000, and the watermark advances to
23,000 immediately after. -/
theorem scenario_trace_amended :
    segmentationStep scenarioBuffer10 0 = (none, 10000) ∧
      segmentationStep scenarioBuffer18 10000 = (none, 10000) ∧
      segmentationStep scenarioBuffer23 10000 = (some scenarioSegment, 23000) ∧
      scenarioSegment.length = 13000 :=
  ⟨segStep_scenario10, segStep_scenario18, segStep_scenario23,
    by rw [scenarioSegment, List.length_append, List.length_replicate, List.length_replicate]⟩

/-- C5 counterexample: a Polish request submitted while a transcription run is
in flight (`processing = true`) is *not* silently dropped — `polishText` has no
guard, posts its `polishing` and `polished` messages regardless of the flag,
and so a second pipeline request does run while the first is in flight. -/
theorem polish_not_dropped_cex :
    polishTextRun true none "x" =
      (true, [.polishing, .polished (fallbackNoteData "x")]) := rfl

/-- C5 (corrected): the single-flight guard covers only the transcription
stage: a `generate` request arriving while `processing` is set is silently
dropped — no message is posted and the flag is unchanged, so the in-flight
run's outcome is unaffected — whereas a `polish` request always proceeds and
posts its messages regardless of the flag. -/
theorem single_flight_amended (out fin : String) (parsed : Option Json) :
    generateRun true out = (true, []) ∧
      (polishTextRun true parsed fin).2 =
        [.polishing, .polished (processPolishOutput parsed fin)] :=
  ⟨rfl, rfl⟩

/-- C6 (confirmed): a well-formed polish response
`{"title":"T","category":"C","tags":["a"],"content":"X"}` round-trips to a
note with identical four fields; a response missing any of title, category or
content, or whose tags is not an array, and likewise a parse failure, all
yield the degraded fallback note (title "Untitled Note", category
"Uncategorized", tags ["auto-generated"], raw streamed text as content) —
polishing never fails outright. -/
theorem polish_roundtrip_and_fallback (j : Json) (raw : String) :
    processPolishOutput (some wellFormedPolishJson) raw =
      ⟨.str "T", .str "C", .arr [.str "a"], .str "X"⟩ ∧
      ((getField j "title" = none ∨ getField j "category" = none ∨
          getField j "content" = none ∨ isArrayField j "tags" = false) →
        processPolishOutput (some j) raw = fallbackNoteData raw) ∧
      processPolishOutput none raw = fallbackNoteData raw := by
  refine ⟨rfl, ?_, rfl⟩
  intro h
  have hval : validPolishJson j = false := by
    rcases h with h | h | h | h
    · simp [validPolishJson, truthyField, h]
    · simp [validPolishJson, truthyField, h]
    · simp [validPolishJson, truthyField, h]
    · simp [validPolishJson, h]
  simp [processPolishOutput, hval]

/-- Witness for `polish_roundtrip_and_fallback`: the spec's malformed example,
an object missing `tags`, degrades to the fallback note. -/
theorem polish_roundtrip_and_fallback_witness :
    isArrayField (Json.obj [("title", .str "T"), ("category", .str "C"),
        ("content", .str "X")]) "tags" = false ∧
      processPolishOutput (some (Json.obj [("title", .str "T"), ("category", .str "C"),
        ("content", .str "X")])) "raw text" = fallbackNoteData "raw text" :=
  ⟨rfl, (polish_roundtrip_and_fallback
      (Json.obj [("title", .str "T"), ("category", .str "C"), ("content", .str "X")])
      "raw text").2.1 (Or.inr (Or.inr (Or.inr rfl)))⟩

/-- C10 (confirmed): a polish response that parses as JSON and has all four
fields present, but whose title, category or content is the empty string,
fails the truthiness validation and produces the degraded fallback note
instead of the parsed fields. -/
theorem empty_field_fallback (j : Json) (raw : String)
    (h : getField j "title" = some (.str "") ∨ getField j "category" = some (.str "") ∨
      getField j "content" = some (.str "")) :
    processPolishOutput (some j) raw = fallbackNoteData raw := by
  have hval : validPolishJson j = false := by
    rcases h with h | h | h <;> simp [validPolishJson, truthyField, h, truthy]
  simp [processPolishOutput, hval]

/-- Witness for `empty_field_fallback`: all four fields present, tags a real
array, but the title is the empty string. -/
theorem empty_field_fallback_witness :
    getField (Json.obj [("title", .str ""), ("category", .str "C"),
        ("tags", .arr []), ("content", .str "X")]) "title" = some (.str "") ∧
      processPolishOutput (some (Json.obj [("title", .str ""), ("category", .str "C"),
        ("tags", .arr []), ("content", .str "X")])) "raw" = fallbackNoteData "raw" :=
  ⟨rfl, empty_field_fallback
      (Json.obj [("title", .str ""), ("category", .str "C"), ("tags", .arr []),
        ("content", .str "X")]) "raw" (Or.inl rfl)⟩

/-- C7 (corrected): on transcription output whose trimmed form is empty, the
worker-message handler short-circuits: it dispatches `NO_SPEECH_DETECTED`
(never `TRANSCRIPTION_COMPLETE`), requests no polishing, and the resulting
state has processing and polishing cleared and the fixed no-speech message
installed. (Feeding `TRANSCRIPTION_COMPLETE("")` directly to the reducer does
not produce that state — see the counterexample.) -/
theorem empty_output_no_speech (s : SpeechState) (out : String)
    (h : jsTrim out = "") :
    handleCompleteMessage s out = (speechReducer s .noSpeechDetected, false) ∧
      (speechReducer s .noSpeechDetected).isProcessing = false ∧
      (speechReducer s .noSpeechDetected).isPolishing = false ∧
      (speechReducer s .noSpeechDetected).polishedText = noSpeechMessage := by
  refine ⟨?_, rfl, rfl, rfl⟩
  rw [handleCompleteMessage, if_neg]
  intro hc
  exact hc.2 h

/-- Witness for `empty_output_no_speech` at the empty output and the initial
state. -/
theorem empty_output_no_speech_witness :
    jsTrim "" = "" ∧
      handleCompleteMessage initialSpeechState "" =
        (speechReducer initialSpeechState .noSpeechDetected, false) :=
  ⟨rfl, (empty_output_no_speech initialSpeechState "" rfl).1⟩

/-- C7 counterexample: applying the reducer itself to
`TRANSCRIPTION_COMPLETE("")` does not produce the `NO_SPEECH_DETECTED` state:
the fixed user-facing message is not installed (the polished text stays
empty), so the two states differ. -/
theorem transcription_complete_empty_reducer_cex :
    (speechReducer initialSpeechState (.transcriptionComplete "")).polishedText ≠
        noSpeechMessage ∧
      speechReducer initialSpeechState (.transcriptionComplete "") ≠
        speechReducer initialSpeechState .noSpeechDetected := by
  have h1 : (speechReducer initialSpeechState (.transcriptionComplete "")).polishedText
      = "" := rfl
  have h2 : noSpeechMessage ≠ "" := by decide
  constructor
  · rw [h1]
    exact fun h => h2 h.symm
  · intro h
    have h3 := congrArg SpeechState.polishedText h
    rw [h1] at h3
    have h4 : (speechReducer initialSpeechState SpeechAction.noSpeechDetected).polishedText
        = noSpeechMessage := rfl
    rw [h4] at h3
    exact h2 h3.symm

/-- C8 counterexample: the reducer's `TRANSCRIPTION_COMPLETE` does not append
to the accumulated transcript — it overwrites it: from a state whose
transcript is "hello", completing with "world" yields "world", not
"hello world". -/
theorem transcription_complete_overwrites_cex :
    (speechReducer { initialSpeechState with text := "hello" }
        (.transcriptionComplete "world")).text = "world" ∧
      ("world" : String) ≠ "hello world" :=
  ⟨rfl, by decide⟩

/-- C8 (corrected): the reducer's `TRANSCRIPTION_COMPLETE(text)` replaces the
transcript with `text` and sets the polishing flag iff the trimmed text is
non-empty; the append-only, single-space-joined accumulation lives in the main
thread's worker-message handler (`appendTranscription`), which joins the
previous transcript and the new output with exactly one space when both are
non-empty and plain concatenation otherwise. -/
theorem transcript_update_amended (s : SpeechState) (t prev out : String) :
    (speechReducer s (.transcriptionComplete t)).text = t ∧
      (speechReducer s (.transcriptionComplete t)).isPolishing =
        decide (jsTrim t ≠ "") ∧
      appendTranscription prev out =
        (if prev = "" then out else if out = "" then prev else prev ++ " " ++ out) := by
  refine ⟨rfl, rfl, ?_⟩
  rw [appendTranscription]
  by_cases hp : prev = ""
  · rw [if_pos hp, if_neg (fun hc => hc.1 hp), hp, String.empty_append,
      String.empty_append]
  · rw [if_neg hp]
    by_cases ho : out = ""
    · rw [if_pos ho, if_neg (fun hc => hc.2 ho), ho, String.append_empty,
        String.append_empty]
    · rw [if_neg ho, if_pos ⟨hp, ho⟩]

/-- C9 (confirmed): calling `start()` when a recorder is already armed
(`hasRecorder` set, i.e. a microphone handle is held) acquires no second
microphone handle and creates no new recorder or audio context — acquisition
is idempotent. -/
theorem start_recording_idempotent (s : CaptureState) (h : s.hasRecorder = true) :
    (startRecording s).micAcquisitions = s.micAcquisitions ∧
      (startRecording s).recordersCreated = s.recordersCreated ∧
      (startRecording s).audioContextsCreated = s.audioContextsCreated := by
  rw [startRecording, if_pos h]
  exact ⟨rfl, rfl, rfl⟩

/-- Witness for `start_recording_idempotent` at a concrete armed state. -/
theorem start_recording_idempotent_witness :
    (⟨true, 1, 1, 1, false⟩ : CaptureState).hasRecorder = true ∧
      (startRecording ⟨true, 1, 1, 1, false⟩).micAcquisitions = 1 ∧
      (startRecording ⟨true, 1, 1, 1, false⟩).recordersCreated = 1 ∧
      (startRecording ⟨true, 1, 1, 1, false⟩).audioContextsCreated = 1 :=
  ⟨rfl, (start_recording_idempotent ⟨true, 1, 1, 1, false⟩ rfl).1,
    (start_recording_idempotent ⟨true, 1, 1, 1, false⟩ rfl).2.1,
    (start_recording_idempotent ⟨true, 1, 1, 1, false⟩ rfl).2.2⟩

end VoiceNote
